import Mathlib

/-!
Shallow embedding of the shopify-ciro-mcp server (three transport variants:
`src/index.js` = SSE, `src/server.js` = streamable HTTP, `src/unnamed/part_000`
= stdio pipe).  JavaScript values flowing through the tool handlers are
modelled by the inductive `Json` below; `undefined` is modelled as `none` of
`Option Json`.  Property access (`data.asset`) is modelled as an
association-list lookup that yields `none` where JavaScript yields
`undefined`; the theorems only ever exercise it on the well-formed response
shapes the handlers are written for.
-/

/-- JavaScript/JSON values.  Numbers are modelled as integers: every numeric
literal appearing in the repository (theme ids, status codes, sizes) is an
integer, and no arithmetic is performed on them. -/
inductive Json where
  | null : Json
  | bool : Bool → Json
  | num : Int → Json
  | str : String → Json
  | arr : List Json → Json
  | obj : List (String × Json) → Json
deriving Repr

/-- Property access `j.k`: association-list lookup on objects, `none`
(JavaScript `undefined`) otherwise. -/
def Json.get (j : Json) (k : String) : Option Json :=
  match j with
  | .obj fs => (fs.find? (fun p => p.1 = k)).map (fun p => p.2)
  | _ => none

/-- Array indexing `j[i]` as used in `data.themes[0]`. -/
def Json.idx (j : Json) (i : Nat) : Option Json :=
  match j with
  | .arr xs => xs.get? i
  | _ => none

/-- JavaScript truthiness of a defined value. -/
def Json.truthy : Json → Bool
  | .null => false
  | .bool b => b
  | .num n => n != 0
  | .str s => s != ""
  | .arr _ => true
  | .obj _ => true

/-- JavaScript truthiness where `none` is `undefined` (falsy). -/
def jsTruthy : Option Json → Bool
  | none => false
  | some j => j.truthy

/-- The JavaScript `a || b` operator on possibly-undefined values. -/
def jsOr (a b : Option Json) : Option Json :=
  if jsTruthy a then a else b

/-- Lower-case hexadecimal digit. -/
def hexDigLower (n : Nat) : Char :=
  if n < 10 then Char.ofNat (48 + n) else Char.ofNat (87 + n)

/-- Upper-case hexadecimal digit (as produced by `encodeURIComponent`). -/
def hexDigUpper (n : Nat) : Char :=
  if n < 10 then Char.ofNat (48 + n) else Char.ofNat (55 + n)

/-- `JSON.stringify` escaping of a single character inside a string literal:
quote, backslash and the control characters below 0x20. -/
def jsonEscapeChar (c : Char) : String :=
  if c.toNat = 34 then "\\\""
  else if c.toNat = 92 then "\\\\"
  else if c.toNat = 8 then "\\b"
  else if c.toNat = 9 then "\\t"
  else if c.toNat = 10 then "\\n"
  else if c.toNat = 12 then "\\f"
  else if c.toNat = 13 then "\\r"
  else if c.toNat < 32 then
    "\\u00" ++ String.singleton (hexDigLower (c.toNat / 16))
            ++ String.singleton (hexDigLower (c.toNat % 16))
  else String.singleton c

/-- `JSON.stringify` escaping of a whole string (without the quotes). -/
def jsonEscape (s : String) : String :=
  String.join (s.data.map jsonEscapeChar)

mutual
/-- Compact `JSON.stringify`, as used for request bodies
(`JSON.stringify(body)`). -/
def Json.stringify : Json → String
  | .null => "null"
  | .bool b => cond b "true" "false"
  | .num n => toString n
  | .str s => "\"" ++ jsonEscape s ++ "\""
  | .arr xs => "[" ++ stringifyArr xs ++ "]"
  | .obj fs => "\x7b" ++ stringifyObj fs ++ "\x7d"

/-- Comma-separated serialization of array elements. -/
def stringifyArr : List Json → String
  | [] => ""
  | [x] => Json.stringify x
  | x :: y :: xs => Json.stringify x ++ "," ++ stringifyArr (y :: xs)

/-- Comma-separated serialization of object fields. -/
def stringifyObj : List (String × Json) → String
  | [] => ""
  | [(k, v)] => "\"" ++ jsonEscape k ++ "\":" ++ Json.stringify v
  | (k, v) :: f :: fs =>
      "\"" ++ jsonEscape k ++ "\":" ++ Json.stringify v ++ "," ++ stringifyObj (f :: fs)
end

/-- JavaScript `String(x)` conversion for the values the handlers apply it to
(`String(t.id)` where `id` is a number or string). -/
def jsToString : Json → String
  | .null => "null"
  | .bool b => cond b "true" "false"
  | .num n => toString n
  | .str s => s
  | .arr _ => ""
  | .obj _ => "[object Object]"

/-- The process environment variables the three entry files read. -/
structure Env where
  shopifyShop : Option String
  shopifyAccessToken : Option String
  shopifyActiveThemeId : Option String

/-- JavaScript `v || d` on an environment string (`undefined` and the empty
string are falsy). -/
def jsOrStr (v : Option String) (d : String) : String :=
  match v with
  | none => d
  | some s => if s = "" then d else s

/-- `const SHOP = process.env.SHOPIFY_SHOP || 'ciro-jewelry.myshopify.com'`
(identical in all three files). -/
def resolveSHOP (env : Env) : String :=
  jsOrStr env.shopifyShop "ciro-jewelry.myshopify.com"

/-- `const ACTIVE_THEME_ID = process.env.SHOPIFY_ACTIVE_THEME_ID ||
'161795899724'` (identical in all three files). -/
def resolveACTIVE_THEME_ID (env : Env) : String :=
  jsOrStr env.shopifyActiveThemeId "161795899724"

/-- `const API_VERSION = '2026-04'` (identical in all three files). -/
def API_VERSION : String := "2026-04"

/-- The resolved module-level constants a running process holds. -/
structure Config where
  SHOP : String
  TOKEN : String
  ACTIVE_THEME_ID : String
deriving Repr

/-- `!TOKEN`: the token is missing or the empty string. -/
def tokenFalsy (v : Option String) : Bool :=
  match v with
  | none => true
  | some s => s = ""

/-- Outcome of module initialization: either `process.exit(code)` after a
diagnostic on stderr, or a running process with resolved constants. -/
inductive StartupResult where
  | exited : Nat → String → StartupResult
  | running : Config → StartupResult
deriving Repr

/-- Startup of `src/index.js`: resolve constants, then
`if (!TOKEN) { console.error(...); process.exit(1); }`.  No call to
`shopifyRequest` appears at module top level in any of the three files —
outbound requests happen only inside tool handlers of a running process —
so startup itself performs no network call in either branch. -/
def startup_index (env : Env) : StartupResult :=
  if tokenFalsy env.shopifyAccessToken then
    .exited 1 "ERROR: SHOPIFY_ACCESS_TOKEN environment variable is required"
  else
    .running { SHOP := resolveSHOP env,
               TOKEN := (env.shopifyAccessToken).getD "",
               ACTIVE_THEME_ID := resolveACTIVE_THEME_ID env }

/-- Startup of `src/server.js`:
`if (!TOKEN) { process.stderr.write('ERROR: SHOPIFY_ACCESS_TOKEN required\n'); process.exit(1); }`. -/
def startup_server (env : Env) : StartupResult :=
  if tokenFalsy env.shopifyAccessToken then
    .exited 1 "ERROR: SHOPIFY_ACCESS_TOKEN required\n"
  else
    .running { SHOP := resolveSHOP env,
               TOKEN := (env.shopifyAccessToken).getD "",
               ACTIVE_THEME_ID := resolveACTIVE_THEME_ID env }

/-- Startup of `src/unnamed/part_000` (stdio variant): same check and
diagnostic as `src/server.js`. -/
def startup_stdio (env : Env) : StartupResult :=
  if tokenFalsy env.shopifyAccessToken then
    .exited 1 "ERROR: SHOPIFY_ACCESS_TOKEN required\n"
  else
    .running { SHOP := resolveSHOP env,
               TOKEN := (env.shopifyAccessToken).getD "",
               ACTIVE_THEME_ID := resolveACTIVE_THEME_ID env }

/-- One outbound HTTPS request, as assembled by `shopifyRequest`'s `options`
object.  Header values are strings; `Content-Length` carries the decimal
byte count. -/
structure HttpRequest where
  hostname : String
  port : Nat
  path : String
  method : String
  headers : List (String × String)
  body : Option String
deriving Repr

/-- An upstream response as seen by the `'end'` listener: status code and the
accumulated body text. -/
structure HttpResponse where
  statusCode : Nat
  data : String

/-- The `options` object and body of `shopifyRequest(method, path, body)`
(identical in all three files): host `SHOP`, port 443, path
`/admin/api/API_VERSION/path`, headers `X-Shopify-Access-Token` and
`Content-Type: application/json` always, plus `Content-Length` exactly when a
body is supplied (`...(bodyStr ? {Content-Length: ...} : {})`). -/
def buildRequest (cfg : Config) (method path : String) (body : Option Json) :
    HttpRequest :=
  let bodyStr := body.map Json.stringify
  { hostname := cfg.SHOP
    port := 443
    path := "/admin/api/" ++ API_VERSION ++ "/" ++ path
    method := method
    headers :=
      [("X-Shopify-Access-Token", cfg.TOKEN),
       ("Content-Type", "application/json")] ++
      (match bodyStr with
       | some s => [("Content-Length", toString s.utf8ByteSize)]
       | none => [])
    body := bodyStr }

/-- The `'end'` listener of `shopifyRequest`: status ≥ 400 rejects with
`new Error(errTag + statusCode + ': ' + data)`; otherwise
`try { resolve(JSON.parse(data)) } catch { resolve(data) }`.  The JSON parser
is a parameter `parse` (a `JSON.parse` returning `none` where the real one
throws); `errTag` is `"Shopify API "` in `src/index.js` and `"Shopify "` in
the other two files. -/
def handleEnd (parse : String → Option Json) (errTag : String)
    (res : HttpResponse) : Except String Json :=
  if res.statusCode ≥ 400 then
    .error (errTag ++ toString res.statusCode ++ ": " ++ res.data)
  else
    match parse res.data with
    | some j => .ok j
    | none => .ok (.str res.data)

/-- `shopifyRequest(method, path, body)` against an upstream modelled as a
function from requests to responses: the list of requests actually sent
(exactly one — the promise settles on the first response, with no retry
logic anywhere in the function) paired with the settled outcome. -/
def shopifyRequest (parse : String → Option Json) (errTag : String)
    (cfg : Config) (method path : String) (body : Option Json)
    (upstream : HttpRequest → HttpResponse) :
    List HttpRequest × Except String Json :=
  let req := buildRequest cfg method path body
  ([req], handleEnd parse errTag (upstream req))

/-- `encodeURIComponent` applied to one UTF-8 byte: the unreserved characters
`A-Z a-z 0-9 - _ . ! ~ * ' ( )` pass through, everything else becomes `%XX`
with upper-case hex. -/
def encodeURIByte (b : Nat) : String :=
  if (65 ≤ b ∧ b ≤ 90) ∨ (97 ≤ b ∧ b ≤ 122) ∨ (48 ≤ b ∧ b ≤ 57) ∨
     b = 45 ∨ b = 95 ∨ b = 46 ∨ b = 33 ∨ b = 126 ∨ b = 42 ∨ b = 39 ∨
     b = 40 ∨ b = 41 then
    String.singleton (Char.ofNat b)
  else
    "%" ++ String.singleton (hexDigUpper (b / 16)) ++
          String.singleton (hexDigUpper (b % 16))

/-- The UTF-8 bytes of one character (as byte values), used by
`encodeURIComponent`'s percent-encoding. -/
def utf8Bytes (c : Char) : List Nat :=
  let n := c.toNat
  if n < 128 then [n]
  else if n < 2048 then [192 + n / 64, 128 + n % 64]
  else if n < 65536 then
    [224 + n / 4096, 128 + (n / 64) % 64, 128 + n % 64]
  else
    [240 + n / 262144, 128 + (n / 4096) % 64, 128 + (n / 64) % 64,
     128 + n % 64]

/-- `encodeURIComponent`, percent-encoding the UTF-8 bytes of the string. -/
def encodeURIComponent (s : String) : String :=
  String.join ((s.data.flatMap utf8Bytes).map encodeURIByte)

/-- The `(method, path, body)` arguments a tool handler passes to
`shopifyRequest`. -/
structure CallArgs where
  method : String
  path : String
  body : Option Json
deriving Repr

/-- `theme_id || ACTIVE_THEME_ID` — the defaulting every optional `theme_id`
goes through (JavaScript `||`: `undefined` and `""` fall back). -/
def defaultThemeId (cfg : Config) (theme_id : Option String) : String :=
  match theme_id with
  | none => cfg.ACTIVE_THEME_ID
  | some s => if s = "" then cfg.ACTIVE_THEME_ID else s

/-- `shopify_list_themes` call site (identical in all three files):
`shopifyRequest('GET', 'themes.json')`. -/
def listThemes_call : CallArgs :=
  { method := "GET", path := "themes.json", body := none }

/-- `shopify_get_active_theme` call site (identical in all three files):
`shopifyRequest('GET', 'themes.json?role=main')`. -/
def getActiveTheme_call : CallArgs :=
  { method := "GET", path := "themes.json?role=main", body := none }

/-- `shopify_list_theme_files` call site (identical in all three files):
`shopifyRequest('GET', `themes/id/assets.json`)` with the defaulted id. -/
def listThemeFiles_call (cfg : Config) (theme_id : Option String) : CallArgs :=
  { method := "GET"
    path := "themes/" ++ defaultThemeId cfg theme_id ++ "/assets.json"
    body := none }

/-- `shopify_read_file` call site (identical in all three files):
GET `themes/id/assets.json?asset[key]=encodeURIComponent(key)`. -/
def readFile_call (cfg : Config) (key : String) (theme_id : Option String) :
    CallArgs :=
  { method := "GET"
    path := "themes/" ++ defaultThemeId cfg theme_id ++
            "/assets.json?asset[key]=" ++ encodeURIComponent key
    body := none }

/-- `shopify_write_file` call site (identical in all three files):
PUT `themes/id/assets.json` with body `{asset:{key,value}}`. -/
def writeFile_call (cfg : Config) (key value : String)
    (theme_id : Option String) : CallArgs :=
  { method := "PUT"
    path := "themes/" ++ defaultThemeId cfg theme_id ++ "/assets.json"
    body := some (.obj [("asset", .obj [("key", .str key),
                                        ("value", .str value)])]) }

/-- `shopify_duplicate_theme` call site (identical in all three files):
POST `themes.json` with body
`{theme:{name:new_name, role:'unpublished', src:https://SHOP/admin/themes/theme_id/duplicate}}`. -/
def duplicateTheme_call (cfg : Config) (theme_id new_name : String) :
    CallArgs :=
  { method := "POST"
    path := "themes.json"
    body := some (.obj [("theme", .obj
      [("name", .str new_name),
       ("role", .str "unpublished"),
       ("src", .str ("https://" ++ cfg.SHOP ++ "/admin/themes/" ++
                     theme_id ++ "/duplicate"))])]) }

/-- `shopify_get_theme_settings` call site (identical in all three files):
GET `themes/id/assets.json?asset[key]=config%2Fsettings_data.json` with the
percent-encoding written literally in the source. -/
def getThemeSettings_call (cfg : Config) (theme_id : Option String) :
    CallArgs :=
  { method := "GET"
    path := "themes/" ++ defaultThemeId cfg theme_id ++
            "/assets.json?asset[key]=config%2Fsettings_data.json"
    body := none }

/-- `shopify_read_file` response handling in `src/unnamed/part_000` (stdio)
and `src/server.js` (streamable HTTP), which are textually identical:
the tool text is `data.asset.value || '(binary)'`. -/
def readFile_text_stdio (data : Json) : Option Json :=
  jsOr ((data.get "asset").bind (fun a => a.get "value"))
       (some (.str "(binary)"))

/-- `shopify_read_file` response handling in `src/index.js` (SSE): the tool
text is `data.asset.value || data.asset.attachment || '(binary or no content)'`. -/
def readFile_text_index (data : Json) : Option Json :=
  jsOr (jsOr ((data.get "asset").bind (fun a => a.get "value"))
             ((data.get "asset").bind (fun a => a.get "attachment")))
       (some (.str "(binary or no content)"))

/-- `shopify_get_theme_settings` response handling (identical in all three
files): the tool text is `data.asset.value || '(empty)'`. -/
def getThemeSettings_text (data : Json) : Option Json :=
  jsOr ((data.get "asset").bind (fun a => a.get "value"))
       (some (.str "(empty)"))

/-- `shopify_get_active_theme` response handling in `src/index.js`:
`data.themes[0] || null` (the value handed to `JSON.stringify`). -/
def getActiveTheme_value_index (data : Json) : Option Json :=
  jsOr ((data.get "themes").bind (fun t => t.idx 0)) (some .null)

/-- `shopify_get_active_theme` response handling in `src/server.js`:
`data.themes[0]` with no null fallback — `undefined` (`none`) on an empty
themes array. -/
def getActiveTheme_value_server (data : Json) : Option Json :=
  (data.get "themes").bind (fun t => t.idx 0)

/-- `shopify_get_active_theme` response handling in `src/unnamed/part_000`:
`data.themes[0]`, same as `src/server.js`. -/
def getActiveTheme_value_stdio (data : Json) : Option Json :=
  (data.get "themes").bind (fun t => t.idx 0)

/-- `shopify_duplicate_theme` response handling in `src/unnamed/part_000` and
`src/server.js` (textually identical):
`{success:true, id:String(data.theme.id), name:data.theme.name}`.
Modelled on responses carrying `theme.id` and `theme.name`; on anything else
the JavaScript coerces `undefined` and the model returns `none`. -/
def duplicateTheme_value_stdio (data : Json) : Option Json := do
  let t ← data.get "theme"
  let i ← t.get "id"
  let nm ← t.get "name"
  pure (.obj [("success", .bool true), ("id", .str (jsToString i)),
              ("name", nm)])

/-- `shopify_duplicate_theme` response handling in `src/index.js`:
`{success:true, new_theme:{id:String(t.id), name:t.name}}` — the id and name
are nested under `new_theme`, not top-level. -/
def duplicateTheme_value_index (data : Json) : Option Json := do
  let t ← data.get "theme"
  let i ← t.get "id"
  let nm ← t.get "name"
  pure (.obj [("success", .bool true),
              ("new_theme", .obj [("id", .str (jsToString i)),
                                  ("name", nm)])])

/-- The SSE variant's `const transports = {}` map, keyed by session id.
A transport connection object is identified by a `Nat` tag. -/
structure SSEState where
  transports : List (String × Nat)
deriving Repr

/-- Lookup `transports[sessionId]`. -/
def SSEState.lookup (st : SSEState) (sid : String) : Option Nat :=
  ((st.transports).find? (fun p => p.1 = sid)).map (fun p => p.2)

/-- Events the `src/index.js` HTTP server handles that touch the session
map: a `GET /sse` opening a connection (the SDK allocates `sessionId`, the
server stores the transport), the `close` event of a connection (the server
deletes the entry), and a `POST /message?sessionId=sid`. -/
inductive SSEEvent where
  | connect : String → Nat → SSEEvent
  | disconnect : String → SSEEvent
  | post : String → SSEEvent
deriving Repr, DecidableEq

/-- Response of the `POST /message` route: 404 `{error:'Session not found'}`
when the session id is absent, otherwise the message is handed to
`transport.handlePostMessage`. -/
inductive SSEPostOutcome where
  | notFound : SSEPostOutcome
  | handledBy : Nat → SSEPostOutcome
deriving Repr, DecidableEq

/-- Object-key update `transports[sid] = t`. -/
def mapSet (m : List (String × Nat)) (sid : String) (t : Nat) :
    List (String × Nat) :=
  (sid, t) :: m.filter (fun p => p.1 ≠ sid)

/-- Object-key deletion `delete transports[sid]`. -/
def mapDelete (m : List (String × Nat)) (sid : String) :
    List (String × Nat) :=
  m.filter (fun p => p.1 ≠ sid)

/-- The `POST /message` route of `src/index.js`: look the session id up in
the map; if absent answer 404 and invoke no handler (the returned list of
handler invocations is empty), otherwise invoke `handlePostMessage` of the
stored transport.  The map is not modified by this route. -/
def handleMessagePost (st : SSEState) (sid : String) :
    SSEPostOutcome × List Nat :=
  match st.lookup sid with
  | none => (.notFound, [])
  | some t => (.handledBy t, [t])

/-- One step of the session-map state machine, returning the new state and
the list of `handlePostMessage` invocations the step caused. -/
def sseStep (st : SSEState) (e : SSEEvent) : SSEState × List Nat :=
  match e with
  | .connect sid t => (⟨mapSet st.transports sid t⟩, [])
  | .disconnect sid => (⟨mapDelete st.transports sid⟩, [])
  | .post sid => (st, (handleMessagePost st sid).2)

/-- Run a sequence of events. -/
def sseRun (st : SSEState) : List SSEEvent → SSEState
  | [] => st
  | e :: es => sseRun (sseStep st e).1 es

/-- `e` opens session `sid`. -/
def opensSession (sid : String) (e : SSEEvent) : Prop :=
  ∃ t, e = .connect sid t

/-- A concrete resolved configuration, used by the closed witnesses. -/
def cfg0 : Config :=
  { SHOP := "ciro-jewelry.myshopify.com", TOKEN := "shpat-token",
    ACTIVE_THEME_ID := "161795899724" }

/-- C1: every `shopifyRequest` invocation sends exactly one request (no
retry); a response with status ≥ 400 rejects with an error message carrying
the status code and the raw body, a response with status < 400 resolves with
the parsed JSON body, or with the raw text when parsing fails.  `errTag` is
the message head of the variant (`"Shopify API "` in `src/index.js`,
`"Shopify "` in `src/unnamed/part_000`). -/
theorem claim_C1_rest_client_outcome
    (parse : String → Option Json) (errTag : String) (cfg : Config)
    (method path : String) (body : Option Json)
    (upstream : HttpRequest → HttpResponse) (res : HttpResponse)
    (_hTag : errTag = "Shopify API " ∨ errTag = "Shopify ")
    (hres : upstream (buildRequest cfg method path body) = res) :
    (shopifyRequest parse errTag cfg method path body upstream).1.length = 1 ∧
    (res.statusCode ≥ 400 →
      (shopifyRequest parse errTag cfg method path body upstream).2 =
        .error (errTag ++ toString res.statusCode ++ ": " ++ res.data)) ∧
    (res.statusCode < 400 → ∀ j, parse res.data = some j →
      (shopifyRequest parse errTag cfg method path body upstream).2 = .ok j) ∧
    (res.statusCode < 400 → parse res.data = none →
      (shopifyRequest parse errTag cfg method path body upstream).2 =
        .ok (.str res.data)) := by
  refine ⟨rfl, ?_, ?_, ?_⟩
  · intro h
    simp [shopifyRequest, handleEnd, hres, h]
  · intro h j hp
    have h4 : ¬ res.statusCode ≥ 400 := by omega
    simp [shopifyRequest, handleEnd, hres, h4, hp]
  · intro h hp
    have h4 : ¬ res.statusCode ≥ 400 := by omega
    simp [shopifyRequest, handleEnd, hres, h4, hp]

/-- Witness for C1: a concrete 500 response rejects with the status and
body in the message, and a concrete 200 response with unparseable body
resolves with the raw text. -/
theorem claim_C1_rest_client_outcome_witness :
    (shopifyRequest (fun _ => none) "Shopify API " cfg0 "GET" "themes.json"
       none (fun _ => ⟨500, "oops"⟩)).2 = .error "Shopify API 500: oops" ∧
    (shopifyRequest (fun _ => none) "Shopify " cfg0 "GET" "themes.json"
       none (fun _ => ⟨200, "not json"⟩)).2 = .ok (.str "not json") :=
  ⟨(claim_C1_rest_client_outcome (fun _ => none) "Shopify API " cfg0 "GET"
      "themes.json" none (fun _ => ⟨500, "oops"⟩) ⟨500, "oops"⟩ (Or.inl rfl)
      rfl).2.1 (by decide),
   (claim_C1_rest_client_outcome (fun _ => none) "Shopify " cfg0 "GET"
      "themes.json" none (fun _ => ⟨200, "not json"⟩) ⟨200, "not json"⟩
      (Or.inr rfl) rfl).2.2.2 (by decide) rfl⟩

/-- C7: when the access-token environment variable is absent, module
initialization exits with status 1 after writing the variant's diagnostic,
in each of the three transport variants; no outbound request is assembled
on that path (startup performs no network call in any variant — see
`startup_index`). -/
theorem claim_C7_missing_token_exits (env : Env)
    (h : env.shopifyAccessToken = none) :
    startup_index env =
      .exited 1 "ERROR: SHOPIFY_ACCESS_TOKEN environment variable is required" ∧
    startup_server env = .exited 1 "ERROR: SHOPIFY_ACCESS_TOKEN required\n" ∧
    startup_stdio env = .exited 1 "ERROR: SHOPIFY_ACCESS_TOKEN required\n" ∧
    (1 : Nat) ≠ 0 := by
  refine ⟨?_, ?_, ?_, by decide⟩ <;>
    simp [startup_index, startup_server, startup_stdio, tokenFalsy, h]

/-- Witness for C7 at the empty environment. -/
theorem claim_C7_missing_token_exits_witness :
    (Env.mk none none none).shopifyAccessToken = none ∧
    (startup_index ⟨none, none, none⟩ =
       .exited 1 "ERROR: SHOPIFY_ACCESS_TOKEN environment variable is required" ∧
     startup_server ⟨none, none, none⟩ =
       .exited 1 "ERROR: SHOPIFY_ACCESS_TOKEN required\n" ∧
     startup_stdio ⟨none, none, none⟩ =
       .exited 1 "ERROR: SHOPIFY_ACCESS_TOKEN required\n" ∧
     (1 : Nat) ≠ 0) :=
  ⟨rfl, claim_C7_missing_token_exits ⟨none, none, none⟩ rfl⟩

/-- C8 counterexample: a bodyless GET still carries
`Content-Type: application/json` — the header is unconditional in the
`options` object, so "present if and only if a body is supplied" fails. -/
theorem claim_C8_counterexample :
    (buildRequest cfg0 "GET" "themes.json" none).body = none ∧
    ("Content-Type", "application/json") ∈
      (buildRequest cfg0 "GET" "themes.json" none).headers := by
  refine ⟨rfl, ?_⟩
  show ("Content-Type", "application/json") ∈
    [("X-Shopify-Access-Token", "shpat-token"),
     ("Content-Type", "application/json")]
  simp

/-- C8 as amended: every request targets host `SHOP`, port 443, path
`/admin/api/API_VERSION/path`, carries the access-token header and carries
`Content-Type: application/json` unconditionally; the `Content-Length`
header is present if and only if a body is supplied. -/
theorem claim_C8_amended_request_shape (cfg : Config) (method path : String)
    (body : Option Json) :
    (buildRequest cfg method path body).hostname = cfg.SHOP ∧
    (buildRequest cfg method path body).port = 443 ∧
    (buildRequest cfg method path body).path =
      "/admin/api/" ++ API_VERSION ++ "/" ++ path ∧
    ("X-Shopify-Access-Token", cfg.TOKEN) ∈
      (buildRequest cfg method path body).headers ∧
    ("Content-Type", "application/json") ∈
      (buildRequest cfg method path body).headers ∧
    ((∃ v, ("Content-Length", v) ∈ (buildRequest cfg method path body).headers)
      ↔ body.isSome) := by
  cases body with
  | none =>
    refine ⟨rfl, rfl, rfl, by simp [buildRequest], by simp [buildRequest], ?_⟩
    simp [buildRequest]
  | some b =>
    refine ⟨rfl, rfl, rfl, by simp [buildRequest], by simp [buildRequest], ?_⟩
    simp [buildRequest]

/-- C10: the shop hostname and default theme id fall back to the hard-coded
constants when their environment variables are absent, only the token has no
fallback (absent token exits instead of running), and every running
process's hostname and default theme id — hence the hostname of every
assembled request — are non-empty. -/
theorem claim_C10_env_fallbacks (env : Env) :
    resolveSHOP env ≠ "" ∧
    resolveACTIVE_THEME_ID env ≠ "" ∧
    (env.shopifyShop = none →
       resolveSHOP env = "ciro-jewelry.myshopify.com") ∧
    (env.shopifyActiveThemeId = none →
       resolveACTIVE_THEME_ID env = "161795899724") ∧
    (env.shopifyAccessToken = none →
       startup_index env =
         .exited 1 "ERROR: SHOPIFY_ACCESS_TOKEN environment variable is required") ∧
    (∀ cfg, startup_index env = .running cfg ∨
            startup_server env = .running cfg ∨
            startup_stdio env = .running cfg →
       cfg.SHOP ≠ "" ∧ cfg.ACTIVE_THEME_ID ≠ "" ∧
       ∀ method path body,
         (buildRequest cfg method path body).hostname ≠ "") := by
  have hshop : resolveSHOP env ≠ "" := by
    unfold resolveSHOP jsOrStr
    cases hv : env.shopifyShop with
    | none => decide
    | some s =>
      by_cases hs : s = ""
      · simp [hs]
      · simp [hs]
  have hid : resolveACTIVE_THEME_ID env ≠ "" := by
    unfold resolveACTIVE_THEME_ID jsOrStr
    cases hv : env.shopifyActiveThemeId with
    | none => decide
    | some s =>
      by_cases hs : s = ""
      · simp [hs]
      · simp [hs]
  refine ⟨hshop, hid, ?_, ?_, ?_, ?_⟩
  · intro h; simp [resolveSHOP, jsOrStr, h]
  · intro h; simp [resolveACTIVE_THEME_ID, jsOrStr, h]
  · intro h; simp [startup_index, tokenFalsy, h]
  · intro cfg h
    have hcfg : cfg.SHOP = resolveSHOP env ∧
        cfg.ACTIVE_THEME_ID = resolveACTIVE_THEME_ID env := by
      by_cases ht : tokenFalsy env.shopifyAccessToken
      · rcases h with h | h | h <;>
          simp [startup_index, startup_server, startup_stdio, ht] at h
      · rcases h with h | h | h <;>
        · simp [startup_index, startup_server, startup_stdio, ht] at h
          rw [← h]
          exact ⟨rfl, rfl⟩
    refine ⟨hcfg.1 ▸ hshop, hcfg.2 ▸ hid, ?_⟩
    intro method path body
    show cfg.SHOP ≠ ""
    exact hcfg.1 ▸ hshop

/-- Witness for C10 at the empty environment and a running configuration. -/
theorem claim_C10_env_fallbacks_witness :
    resolveSHOP ⟨none, none, none⟩ = "ciro-jewelry.myshopify.com" ∧
    resolveACTIVE_THEME_ID ⟨none, none, none⟩ = "161795899724" ∧
    resolveSHOP ⟨none, none, none⟩ ≠ "" ∧
    (cfg0.SHOP ≠ "" ∧ cfg0.ACTIVE_THEME_ID ≠ "" ∧
     ∀ method path body,
       (buildRequest cfg0 method path body).hostname ≠ "") :=
  ⟨(claim_C10_env_fallbacks ⟨none, none, none⟩).2.2.1 rfl,
   (claim_C10_env_fallbacks ⟨none, none, none⟩).2.2.2.1 rfl,
   (claim_C10_env_fallbacks ⟨none, none, none⟩).1,
   (claim_C10_env_fallbacks ⟨none, some "shpat-token", none⟩).2.2.2.2.2 cfg0
     (Or.inl rfl)⟩

/-- C5: every tool with an optional `theme_id` substitutes the configured
default id when it is omitted; in particular `shopify_list_theme_files`
issues `GET themes/ACTIVE_THEME_ID/assets.json`. -/
theorem claim_C5_theme_id_default (cfg : Config) (key value : String) :
    listThemeFiles_call cfg none =
      { method := "GET",
        path := "themes/" ++ cfg.ACTIVE_THEME_ID ++ "/assets.json",
        body := none } ∧
    readFile_call cfg key none =
      { method := "GET",
        path := "themes/" ++ cfg.ACTIVE_THEME_ID ++
                "/assets.json?asset[key]=" ++ encodeURIComponent key,
        body := none } ∧
    writeFile_call cfg key value none =
      { method := "PUT",
        path := "themes/" ++ cfg.ACTIVE_THEME_ID ++ "/assets.json",
        body := some (.obj [("asset", .obj [("key", .str key),
                                            ("value", .str value)])]) } ∧
    getThemeSettings_call cfg none =
      { method := "GET",
        path := "themes/" ++ cfg.ACTIVE_THEME_ID ++
                "/assets.json?asset[key]=config%2Fsettings_data.json",
        body := none } :=
  ⟨rfl, rfl, rfl, rfl⟩

/-- C2 counterexample: in the SSE variant (`src/index.js`) an asset with no
textual value makes `shopify_read_file` return `'(binary or no content)'`,
not the claimed `'(binary)'`. -/
theorem claim_C2_counterexample :
    readFile_text_index (.obj [("asset", .obj [])]) =
      some (.str "(binary or no content)") ∧
    readFile_text_index (.obj [("asset", .obj [])]) ≠
      some (.str "(binary)") := by
  refine ⟨rfl, ?_⟩
  intro h
  rw [show readFile_text_index (.obj [("asset", .obj [])]) =
        some (.str "(binary or no content)") from rfl] at h
  injection h with h1
  injection h1 with h2
  exact absurd h2 (by decide)

/-- C2 as amended: on an asset with no textual value, `shopify_read_file`
returns `'(binary)'` in the stdio and streamable-HTTP variants, while the
SSE variant returns the raw attachment when one is present and
`'(binary or no content)'` otherwise; `shopify_get_theme_settings` returns
`'(empty)'` in all three variants. -/
theorem claim_C2_amended_placeholders (data a : Json)
    (ha : data.get "asset" = some a)
    (hv : jsTruthy (a.get "value") = false) :
    readFile_text_stdio data = some (.str "(binary)") ∧
    getThemeSettings_text data = some (.str "(empty)") ∧
    (jsTruthy (a.get "attachment") = false →
       readFile_text_index data = some (.str "(binary or no content)")) ∧
    (∀ att, a.get "attachment" = some att → att.truthy = true →
       readFile_text_index data = some att) := by
  refine ⟨?_, ?_, ?_, ?_⟩
  · simp [readFile_text_stdio, jsOr, ha, hv]
  · simp [getThemeSettings_text, jsOr, ha, hv]
  · intro hatt
    simp [readFile_text_index, jsOr, ha, hv, hatt]
  · intro att hatt htr
    simp [readFile_text_index, jsOr, ha, hv, hatt,
          show ∀ j, jsTruthy (some j) = j.truthy from fun _ => rfl, htr]

/-- Witness for C2 (amended) on a concrete binary asset fixture. -/
theorem claim_C2_amended_placeholders_witness :
    readFile_text_stdio (.obj [("asset", .obj [("attachment", .str "Zm9v")])]) =
      some (.str "(binary)") ∧
    getThemeSettings_text (.obj [("asset", .obj [("attachment", .str "Zm9v")])]) =
      some (.str "(empty)") ∧
    readFile_text_index (.obj [("asset", .obj [("attachment", .str "Zm9v")])]) =
      some (.str "Zm9v") := by
  have h := claim_C2_amended_placeholders
      (.obj [("asset", .obj [("attachment", .str "Zm9v")])])
      (.obj [("attachment", .str "Zm9v")]) rfl rfl
  exact ⟨h.1, h.2.1, h.2.2.2 (.str "Zm9v") rfl rfl⟩

/-- C3 counterexample: on an empty `themes` array the SSE variant hands
`null` to the serializer while the stdio and streamable-HTTP variants hand
it `undefined` — the three variants do not behave identically as claimed. -/
theorem claim_C3_counterexample :
    getActiveTheme_value_index (.obj [("themes", .arr [])]) = some .null ∧
    getActiveTheme_value_stdio (.obj [("themes", .arr [])]) = none ∧
    getActiveTheme_value_server (.obj [("themes", .arr [])]) = none ∧
    (none : Option Json) ≠ some .null := by
  refine ⟨rfl, rfl, rfl, by simp⟩

/-- C3 as amended: all three variants return the first theme of a non-empty
`themes` array; on an empty array only the SSE variant falls back to `null`,
the other two variants produce `undefined`. -/
theorem claim_C3_amended_first_theme (data : Json) (ts : List Json)
    (h : data.get "themes" = some (.arr ts)) :
    (∀ t rest, ts = t :: rest →
       getActiveTheme_value_server data = some t ∧
       getActiveTheme_value_stdio data = some t ∧
       (t.truthy = true → getActiveTheme_value_index data = some t)) ∧
    (ts = [] →
       getActiveTheme_value_index data = some .null ∧
       getActiveTheme_value_server data = none ∧
       getActiveTheme_value_stdio data = none) := by
  constructor
  · intro t rest hts
    subst hts
    refine ⟨?_, ?_, ?_⟩
    · simp [getActiveTheme_value_server, h, Json.idx]
    · simp [getActiveTheme_value_stdio, h, Json.idx]
    · intro htr
      simp [getActiveTheme_value_index, jsOr, h, Json.idx, jsTruthy, htr]
  · intro hts
    subst hts
    refine ⟨?_, ?_, ?_⟩
    · simp [getActiveTheme_value_index, jsOr, h, Json.idx, jsTruthy]
    · simp [getActiveTheme_value_server, h, Json.idx]
    · simp [getActiveTheme_value_stdio, h, Json.idx]

/-- Witness for C3 (amended) on a one-theme fixture. -/
theorem claim_C3_amended_first_theme_witness :
    getActiveTheme_value_server
      (.obj [("themes", .arr [.obj [("id", .num 7)]])]) =
      some (.obj [("id", .num 7)]) ∧
    getActiveTheme_value_stdio
      (.obj [("themes", .arr [.obj [("id", .num 7)]])]) =
      some (.obj [("id", .num 7)]) ∧
    getActiveTheme_value_index
      (.obj [("themes", .arr [.obj [("id", .num 7)]])]) =
      some (.obj [("id", .num 7)]) := by
  have h := (claim_C3_amended_first_theme
      (.obj [("themes", .arr [.obj [("id", .num 7)]])])
      [.obj [("id", .num 7)]] rfl).1 (.obj [("id", .num 7)]) [] rfl
  exact ⟨h.1, h.2.1, h.2.2 rfl⟩

/-- An upstream fixture for a theme created by duplication. -/
def dupFixture : Json :=
  .obj [("theme", .obj [("id", .num 161795899724), ("name", .str "Backup")])]

/-- C4 counterexample: the SSE variant's `shopify_duplicate_theme` output
nests the id under `new_theme` — it carries no top-level `id` field, so the
claimed `{success, id, name}` shape fails for that variant. -/
theorem claim_C4_counterexample :
    (duplicateTheme_value_stdio dupFixture).bind (fun j => j.get "id") =
      some (.str "161795899724") ∧
    (duplicateTheme_value_index dupFixture).bind (fun j => j.get "id") =
      none ∧
    duplicateTheme_value_index dupFixture ≠
      duplicateTheme_value_stdio dupFixture := by
  refine ⟨rfl, rfl, ?_⟩
  intro h
  have h2 : (duplicateTheme_value_index dupFixture).bind (fun j => j.get "id")
      = (duplicateTheme_value_stdio dupFixture).bind (fun j => j.get "id") :=
    by rw [h]
  rw [show (duplicateTheme_value_index dupFixture).bind (fun j => j.get "id")
        = none from rfl,
      show (duplicateTheme_value_stdio dupFixture).bind (fun j => j.get "id")
        = some (.str "161795899724") from rfl] at h2
  exact Option.noConfusion h2

/-- C4 as amended: every variant issues one POST to `themes.json` with body
`{theme:{name, role:'unpublished', src: duplicate-URL}}`; on success the
stdio and streamable-HTTP variants return `{success, id, name}` with the id
stringified, while the SSE variant returns `{success, new_theme:{id, name}}`. -/
theorem claim_C4_amended_duplicate_theme (cfg : Config)
    (theme_id new_name : String) (data t i nm : Json)
    (ht : data.get "theme" = some t) (hi : t.get "id" = some i)
    (hn : t.get "name" = some nm) :
    duplicateTheme_call cfg theme_id new_name =
      { method := "POST", path := "themes.json",
        body := some (.obj [("theme", .obj
          [("name", .str new_name), ("role", .str "unpublished"),
           ("src", .str ("https://" ++ cfg.SHOP ++ "/admin/themes/" ++
                         theme_id ++ "/duplicate"))])]) } ∧
    (∀ parse errTag upstream,
       (shopifyRequest parse errTag cfg
          (duplicateTheme_call cfg theme_id new_name).method
          (duplicateTheme_call cfg theme_id new_name).path
          (duplicateTheme_call cfg theme_id new_name).body
          upstream).1.length = 1) ∧
    duplicateTheme_value_stdio data =
      some (.obj [("success", .bool true), ("id", .str (jsToString i)),
                  ("name", nm)]) ∧
    duplicateTheme_value_index data =
      some (.obj [("success", .bool true),
                  ("new_theme", .obj [("id", .str (jsToString i)),
                                      ("name", nm)])]) := by
  refine ⟨rfl, fun _ _ _ => rfl, ?_, ?_⟩
  · simp [duplicateTheme_value_stdio, ht, hi, hn]
  · simp [duplicateTheme_value_index, ht, hi, hn]

/-- Witness for C4 (amended) at the concrete fixture. -/
theorem claim_C4_amended_duplicate_theme_witness :
    duplicateTheme_value_stdio dupFixture =
      some (.obj [("success", .bool true), ("id", .str "161795899724"),
                  ("name", .str "Backup")]) ∧
    duplicateTheme_value_index dupFixture =
      some (.obj [("success", .bool true),
                  ("new_theme", .obj [("id", .str "161795899724"),
                                      ("name", .str "Backup")])]) := by
  have h := claim_C4_amended_duplicate_theme cfg0 "161795899724" "Backup"
      dupFixture (.obj [("id", .num 161795899724), ("name", .str "Backup")])
      (.num 161795899724) (.str "Backup") rfl rfl rfl
  exact ⟨h.2.2.1, h.2.2.2⟩

/-- A session id is absent from the map exactly when no entry carries it. -/
theorem sse_lookup_none_iff (m : List (String × Nat)) (sid : String) :
    SSEState.lookup ⟨m⟩ sid = none ↔ ∀ p ∈ m, p.1 ≠ sid := by
  simp [SSEState.lookup, List.find?_eq_none]

/-- An absent session id stays absent along any event sequence that never
opens a connection with that id. -/
theorem sseRun_keeps_absent (sid : String) (evs : List SSEEvent) :
    ∀ st : SSEState, st.lookup sid = none →
      (∀ t, SSEEvent.connect sid t ∉ evs) →
      (sseRun st evs).lookup sid = none := by
  induction evs with
  | nil => intro st h _; exact h
  | cons e es ih =>
    intro st h hnc
    have hnc' : ∀ t, SSEEvent.connect sid t ∉ es := by
      intro t ht
      exact hnc t (List.mem_cons_of_mem _ ht)
    cases e with
    | connect sid2 t2 =>
      have hne : sid2 ≠ sid := by
        intro hEq
        subst hEq
        exact hnc t2 (List.mem_cons_self _ _)
      apply ih _ ?_ hnc'
      rw [show (sseStep st (.connect sid2 t2)).1 =
            ⟨mapSet st.transports sid2 t2⟩ from rfl, sse_lookup_none_iff]
      intro p hp
      rcases List.mem_cons.mp hp with hp1 | hp2
      · subst hp1
        exact hne
      · exact (sse_lookup_none_iff st.transports sid).mp h p
          (List.mem_filter.mp hp2).1
    | disconnect sid2 =>
      apply ih _ ?_ hnc'
      rw [show (sseStep st (.disconnect sid2)).1 =
            ⟨mapDelete st.transports sid2⟩ from rfl, sse_lookup_none_iff]
      intro p hp
      exact (sse_lookup_none_iff st.transports sid).mp h p
        (List.mem_filter.mp hp).1
    | post sid2 =>
      exact ih _ h hnc'

/-- C6: in the SSE variant, a `POST /message` whose session id is absent
from the map answers 404 and invokes no handler and leaves the map
untouched; closing a session removes its id; and an absent id stays absent
— so never routes any further message — along any sequence of events that
never opens that id again. -/
theorem claim_C6_sse_session_not_found (st : SSEState) (sid : String) :
    ((sseStep st (.disconnect sid)).1.lookup sid = none) ∧
    (st.lookup sid = none →
       handleMessagePost st sid = (.notFound, []) ∧
       (sseStep st (.post sid)).1 = st) ∧
    (st.lookup sid = none →
       ∀ evs : List SSEEvent, (∀ t, SSEEvent.connect sid t ∉ evs) →
         handleMessagePost (sseRun st evs) sid = (.notFound, [])) := by
  refine ⟨?_, ?_, ?_⟩
  · rw [show (sseStep st (.disconnect sid)).1 =
        ⟨mapDelete st.transports sid⟩ from rfl, sse_lookup_none_iff]
    intro p hp
    have hp2 := (List.mem_filter.mp hp).2
    simpa using hp2
  · intro h
    exact ⟨by simp [handleMessagePost, h], rfl⟩
  · intro h evs hnc
    have habs := sseRun_keeps_absent sid evs st h hnc
    simp [handleMessagePost, habs]

/-- Witness for C6: a map holding only session `s1` answers 404 to `s2`,
also after `s1` closes and further traffic arrives. -/
theorem claim_C6_sse_session_not_found_witness :
    handleMessagePost ⟨[("s1", 1)]⟩ "s2" = (.notFound, []) ∧
    handleMessagePost
      (sseRun ⟨[("s1", 1)]⟩ [.disconnect "s1", .post "s2"]) "s2" =
      (.notFound, []) := by
  have h := claim_C6_sse_session_not_found ⟨[("s1", 1)]⟩ "s2"
  refine ⟨(h.2.1 rfl).1, h.2.2 rfl [.disconnect "s1", .post "s2"] ?_⟩
  intro t ht
  simp at ht

/-- C9: for every `theme_id`, `shopify_get_theme_settings` passes
`shopifyRequest` exactly the arguments `shopify_read_file` passes for key
`config/settings_data.json` (the handlers of `src/unnamed/part_000` and
`src/server.js`, which are textually identical); the two outputs agree on
every asset with a textual value and differ only in the placeholder
(`'(binary)'` vs `'(empty)'`) when the value is absent. -/
theorem claim_C9_settings_equals_readFile (cfg : Config)
    (theme_id : Option String) (data a : Json)
    (ha : data.get "asset" = some a) :
    getThemeSettings_call cfg theme_id =
      readFile_call cfg "config/settings_data.json" theme_id ∧
    (∀ v, a.get "value" = some v → v.truthy = true →
       readFile_text_stdio data = some v ∧
       getThemeSettings_text data = some v) ∧
    (jsTruthy (a.get "value") = false →
       readFile_text_stdio data = some (.str "(binary)") ∧
       getThemeSettings_text data = some (.str "(empty)")) := by
  refine ⟨?_, ?_, ?_⟩
  · simp only [getThemeSettings_call, readFile_call, CallArgs.mk.injEq,
               true_and, and_true]
    rw [show encodeURIComponent "config/settings_data.json" =
          "config%2Fsettings_data.json" from rfl,
        String.append_assoc ("themes/" ++ defaultThemeId cfg theme_id)
          "/assets.json?asset[key]=" "config%2Fsettings_data.json"]
    exact congrArg (fun z => "themes/" ++ defaultThemeId cfg theme_id ++ z)
      (show ("/assets.json?asset[key]=config%2Fsettings_data.json" : String) =
            "/assets.json?asset[key]=" ++ "config%2Fsettings_data.json" by rfl)
  · intro v hv htr
    constructor
    · simp [readFile_text_stdio, jsOr, ha, hv,
            show ∀ j, jsTruthy (some j) = j.truthy from fun _ => rfl, htr]
    · simp [getThemeSettings_text, jsOr, ha, hv,
            show ∀ j, jsTruthy (some j) = j.truthy from fun _ => rfl, htr]
  · intro hv
    constructor
    · simp [readFile_text_stdio, jsOr, ha, hv]
    · simp [getThemeSettings_text, jsOr, ha, hv]

/-- Witness for C9 at a concrete settings asset. -/
theorem claim_C9_settings_equals_readFile_witness :
    getThemeSettings_call cfg0 none =
      readFile_call cfg0 "config/settings_data.json" none ∧
    readFile_text_stdio (.obj [("asset", .obj [("value", .str "cfgjson")])]) =
      some (.str "cfgjson") ∧
    getThemeSettings_text
      (.obj [("asset", .obj [("value", .str "cfgjson")])]) =
      some (.str "cfgjson") := by
  have h := claim_C9_settings_equals_readFile cfg0 none
      (.obj [("asset", .obj [("value", .str "cfgjson")])])
      (.obj [("value", .str "cfgjson")]) rfl
  exact ⟨h.1, (h.2.1 (.str "cfgjson") rfl rfl).1,
         (h.2.1 (.str "cfgjson") rfl rfl).2⟩
